import Mathlib

/-!
Shallow embedding of the progress/gamification server actions of the
Learn Kannada app (file `actions/db/progress-actions.ts`, function
`updateProgressWithGamificationAction`, together with the `progress`
table schema from `db/schema/progress-schema.ts` and the `ActionState`
result type from `types/server-action-types.ts`).

Modelling conventions:
* Timestamps are milliseconds since the epoch, as produced by
  JavaScript `Date.getTime()`, modelled as `Int` (differences may be
  negative).
* `xp` and `streak` are `integer` columns declared `.default(0).notNull()`
  in the schema, written only by the actions below, which keep them
  non-negative; they are modelled as `Nat`.  The JavaScript guards
  `existingProgress?.xp || 0` and `existingProgress?.streak || 0` only
  replace a missing/0 value by 0, so on a non-null column they are the
  identity, which `priorXp`/the `streak` projection reflect.
* `updatedAt` is a `timestamp` column declared `.defaultNow().notNull()`,
  so a fetched record always carries one; the JavaScript truthiness test
  `existingProgress && existingProgress.updatedAt` therefore reduces to
  "a prior record exists", which the `Option SelectProgress` match
  reflects.
* `badges` is a JSON array of strings (`json("badges").default([])`),
  modelled as `List String`; `badges.includes(b)` is `b ∈ badges` and
  `badges.push(b)` is `badges ++ [b]`.
* The database is a list of rows; `id` is the primary key (unique).
  The read (`select …`) and the single write (`update … returning` or
  `insert … returning`) can each be rejected by the collaborator; a
  rejected SQL statement persists nothing (statement atomicity), which
  the error branches of `updateProgressTryBlock` reflect.  The `try`/
  `catch` that converts a thrown error into the structured failure
  result is the `match` in `updateProgressWithGamificationAction`.
-/

namespace LearnKannada

/-- A row of the `progress` table (`SelectProgress` in
`db/schema/progress-schema.ts`). -/
structure SelectProgress where
  id : String
  userId : String
  lessonId : Option String
  xp : Nat
  streak : Nat
  badges : List String
  createdAt : Int
  updatedAt : Int
deriving Repr, DecidableEq

/-- The `ActionState<T>` result type from `types/server-action-types.ts`:
`{ isSuccess: true; message: string; data: T } | { isSuccess: false; message: string }`. -/
inductive ActionState (α : Type) where
  | success (message : String) (data : α)
  | failure (message : String)
deriving Repr, DecidableEq

/-- The persisted state of the `progress` table. -/
structure Db where
  records : List SelectProgress
deriving Repr, DecidableEq

/-- One call's behaviour of the persistence collaborator: whether the
read (the `select`) and the write (the `update`/`insert`) throw. -/
structure DbBehavior where
  readFails : Bool
  writeFails : Bool
deriving Repr, DecidableEq

/-- Errors thrown by the persistence collaborator inside the `try` block. -/
inductive DbError where
  | readError
  | writeError
deriving Repr, DecidableEq

/-- `const XP_PER_EXERCISE = 10` -/
def XP_PER_EXERCISE : Nat := 10

/-- `const BADGE_THRESHOLDS = { 50: "Learner", 150: "Scholar", 300: "Master" }`.
JavaScript `Object.entries` enumerates integer-like keys in ascending
numeric order, so the iteration order is 50, 150, 300. -/
def BADGE_THRESHOLDS : List (Nat × String) :=
  [(50, "Learner"), (150, "Scholar"), (300, "Master")]

/-- `const STREAK_WINDOW = 24 * 60 * 60 * 1000` (milliseconds). -/
def STREAK_WINDOW : Int := 24 * 60 * 60 * 1000

/-- `existingProgress?.xp || 0`: the prior record's xp, or 0 when no
record exists (the column is non-null, so `|| 0` only maps 0 to 0). -/
def priorXp : Option SelectProgress → Nat
  | some p => p.xp
  | none => 0

/-- `existingProgress?.badges ? existingProgress.badges : []`: the prior
record's badge array, or the empty array when no record exists. -/
def priorBadges : Option SelectProgress → List String
  | some p => p.badges
  | none => []

/-- The streak computation of `updateProgressWithGamificationAction`:
`let newStreak = existingProgress?.streak || 0` followed by
`if (existingProgress && existingProgress.updatedAt) { const timeDiff =
now.getTime() - lastUpdate.getTime(); if (timeDiff <= STREAK_WINDOW)
newStreak += 1; else if (timeDiff > STREAK_WINDOW * 2) newStreak = 1 }
else { newStreak = 1 }` (`updatedAt` is non-null, so the guard is just
the existence of a prior record). -/
def computeNewStreak (existing : Option SelectProgress) (now : Int) : Nat :=
  match existing with
  | some p =>
      let timeDiff := now - p.updatedAt
      if timeDiff ≤ STREAK_WINDOW then p.streak + 1
      else if timeDiff > STREAK_WINDOW * 2 then 1
      else p.streak
  | none => 1

/-- One iteration of the badge loop:
`if (newXp >= Number(threshold) && !badges.includes(badgeName))
badges.push(badgeName)`. -/
def badgeStep (newXp : Nat) (bs : List String) (tn : Nat × String) : List String :=
  if tn.1 ≤ newXp ∧ tn.2 ∉ bs then bs ++ [tn.2] else bs

/-- The badge loop: `for (const [threshold, badgeName] of
Object.entries(BADGE_THRESHOLDS)) { … }` starting from the prior badge
array. -/
def computeBadges (newXp : Nat) (prior : List String) : List String :=
  BADGE_THRESHOLDS.foldl (badgeStep newXp) prior

/-- The record computed (and returned via `.returning()`) by one call of
`updateProgressWithGamificationAction`, given the fetched prior record:
new xp, new streak, new badges, `updatedAt = now`, and in the update
branch `...(lessonId && { lessonId })` (the lesson association changes
only when a truthy, i.e. non-empty, `lessonId` argument was supplied);
in the insert branch a fresh row with `createdAt = now`. -/
def gamify (existing : Option SelectProgress) (userId : String)
    (lessonId : Option String) (now : Int) (freshId : String) : SelectProgress :=
  let newXp := priorXp existing + XP_PER_EXERCISE
  let newStreak := computeNewStreak existing now
  let badges := computeBadges newXp (priorBadges existing)
  match existing with
  | some p =>
      { p with
        xp := newXp
        streak := newStreak
        badges := badges
        updatedAt := now
        lessonId :=
          match lessonId with
          | some l => if l = "" then p.lessonId else some l
          | none => p.lessonId }
  | none =>
      { id := freshId
        userId := userId
        lessonId := lessonId
        xp := newXp
        streak := newStreak
        badges := badges
        createdAt := now
        updatedAt := now }

/-- `orderBy(desc(progressTable.updatedAt)).limit(1)` over the rows
matching the `where` clause: the row with the greatest `updatedAt`
(on ties SQL order is unspecified; the fold keeps the first). -/
def latestOf (candidates : List SelectProgress) : Option SelectProgress :=
  candidates.foldl
    (fun acc r =>
      match acc with
      | none => some r
      | some b => if b.updatedAt < r.updatedAt then some r else some b)
    none

/-- The read of `updateProgressWithGamificationAction`:
`select().from(progressTable).where(eq(progressTable.userId, userId))
.orderBy(desc(progressTable.updatedAt)).limit(1)`, then `records[0]`. -/
def findLatestByUser (db : Db) (userId : String) : Option SelectProgress :=
  latestOf (db.records.filter (fun r => r.userId == userId))

/-- The write of `updateProgressWithGamificationAction`: `update … set
(updatedData) where (eq(progressTable.id, existingProgress.id))` when a
prior record exists (`id` is the primary key, so the matching row is the
prior record itself and becomes `newRec`), otherwise `insert … values`. -/
def persistGamified (db : Db) (existing : Option SelectProgress)
    (newRec : SelectProgress) : Db :=
  match existing with
  | some p => ⟨db.records.map (fun r => if r.id == p.id then newRec else r)⟩
  | none => ⟨db.records ++ [newRec]⟩

/-- The body of the `try` block of `updateProgressWithGamificationAction`:
fetch the latest record, compute the gamified record, persist it; a
rejected read or write throws, persisting nothing. -/
def updateProgressTryBlock (beh : DbBehavior) (db : Db) (userId : String)
    (lessonId : Option String) (now : Int) (freshId : String) :
    Except DbError (SelectProgress × Db) :=
  if beh.readFails then .error .readError
  else
    let existingProgress := findLatestByUser db userId
    let updatedProgress := gamify existingProgress userId lessonId now freshId
    if beh.writeFails then .error .writeError
    else .ok (updatedProgress, persistGamified db existingProgress updatedProgress)

/-- `updateProgressWithGamificationAction(userId, lessonId?)`: runs the
`try` block; a normal return yields the success result with the updated
record, any thrown error is caught and turned into the failure result,
leaving the database as it was.  Returns the `ActionState` and the
resulting database state. -/
def updateProgressWithGamificationAction (beh : DbBehavior) (db : Db)
    (userId : String) (lessonId : Option String) (now : Int) (freshId : String) :
    ActionState SelectProgress × Db :=
  match updateProgressTryBlock beh db userId lessonId now freshId with
  | .ok (updatedProgress, db') =>
      (.success "Progress updated with gamification successfully" updatedProgress, db')
  | .error _ =>
      (.failure "Failed to update progress with gamification", db)

/-- Iterated application of the update rule to a user's record: each
subsequent call reads back the record the previous call persisted.  A
call is (lessonId, now, freshId). -/
def runCalls (rec : SelectProgress) (userId : String)
    (calls : List (Option String × Int × String)) : SelectProgress :=
  calls.foldl (fun r c => gamify (some r) userId c.1 c.2.1 c.2.2) rec

/-! ### Helper lemmas -/

lemma streak_window_pos : (0 : Int) < STREAK_WINDOW := by
  norm_num [STREAK_WINDOW]

lemma gamify_xp (existing : Option SelectProgress) (u : String) (l : Option String)
    (now : Int) (fid : String) :
    (gamify existing u l now fid).xp = priorXp existing + XP_PER_EXERCISE := by
  cases existing <;> simp [gamify]

lemma gamify_streak (existing : Option SelectProgress) (u : String) (l : Option String)
    (now : Int) (fid : String) :
    (gamify existing u l now fid).streak = computeNewStreak existing now := by
  cases existing <;> simp [gamify]

lemma gamify_badges (existing : Option SelectProgress) (u : String) (l : Option String)
    (now : Int) (fid : String) :
    (gamify existing u l now fid).badges =
      computeBadges (priorXp existing + XP_PER_EXERCISE) (priorBadges existing) := by
  cases existing <;> simp [gamify]

lemma gamify_updatedAt (existing : Option SelectProgress) (u : String) (l : Option String)
    (now : Int) (fid : String) :
    (gamify existing u l now fid).updatedAt = now := by
  cases existing <;> simp [gamify]

lemma gamify_some_userId (p : SelectProgress) (u : String) (l : Option String)
    (now : Int) (fid : String) :
    (gamify (some p) u l now fid).userId = p.userId := by
  simp [gamify]

lemma action_ok (beh : DbBehavior) (db : Db) (u : String) (l : Option String)
    (now : Int) (fid : String)
    (h1 : beh.readFails = false) (h2 : beh.writeFails = false) :
    updateProgressWithGamificationAction beh db u l now fid =
      (ActionState.success "Progress updated with gamification successfully"
          (gamify (findLatestByUser db u) u l now fid),
        persistGamified db (findLatestByUser db u)
          (gamify (findLatestByUser db u) u l now fid)) := by
  simp [updateProgressWithGamificationAction, updateProgressTryBlock, h1, h2]

lemma action_readFail (beh : DbBehavior) (db : Db) (u : String) (l : Option String)
    (now : Int) (fid : String) (h1 : beh.readFails = true) :
    updateProgressWithGamificationAction beh db u l now fid =
      (ActionState.failure "Failed to update progress with gamification", db) := by
  simp [updateProgressWithGamificationAction, updateProgressTryBlock, h1]

lemma action_writeFail (beh : DbBehavior) (db : Db) (u : String) (l : Option String)
    (now : Int) (fid : String)
    (h1 : beh.readFails = false) (h2 : beh.writeFails = true) :
    updateProgressWithGamificationAction beh db u l now fid =
      (ActionState.failure "Failed to update progress with gamification", db) := by
  simp [updateProgressWithGamificationAction, updateProgressTryBlock, h1, h2]

lemma computeNewStreak_none (now : Int) : computeNewStreak none now = 1 := rfl

lemma computeNewStreak_within (p : SelectProgress) (now : Int)
    (h : now - p.updatedAt ≤ STREAK_WINDOW) :
    computeNewStreak (some p) now = p.streak + 1 := by
  simp [computeNewStreak, h]

lemma computeNewStreak_reset (p : SelectProgress) (now : Int)
    (h : STREAK_WINDOW * 2 < now - p.updatedAt) :
    computeNewStreak (some p) now = 1 := by
  have hw := streak_window_pos
  have h1 : ¬ now - p.updatedAt ≤ STREAK_WINDOW := by omega
  simp [computeNewStreak, h1, h]

lemma computeNewStreak_hold (p : SelectProgress) (now : Int)
    (h1 : STREAK_WINDOW < now - p.updatedAt)
    (h2 : now - p.updatedAt ≤ STREAK_WINDOW * 2) :
    computeNewStreak (some p) now = p.streak := by
  have h1' : ¬ now - p.updatedAt ≤ STREAK_WINDOW := not_le.mpr h1
  have h2' : ¬ STREAK_WINDOW * 2 < now - p.updatedAt := not_lt.mpr h2
  simp [computeNewStreak, h1', h2']

lemma badgeStep_mono {b : String} {bs : List String} (x : Nat) (tn : Nat × String)
    (h : b ∈ bs) : b ∈ badgeStep x bs tn := by
  unfold badgeStep
  split
  · exact List.mem_append_left _ h
  · exact h

lemma badgeStep_self {x t : Nat} {n : String} (bs : List String) (h : t ≤ x) :
    n ∈ badgeStep x bs (t, n) := by
  unfold badgeStep
  by_cases hm : n ∈ bs
  · split
    · exact List.mem_append_left _ hm
    · exact hm
  · simp [h, hm]

lemma computeBadges_eq (x : Nat) (bs : List String) :
    computeBadges x bs =
      badgeStep x (badgeStep x (badgeStep x bs (50, "Learner")) (150, "Scholar"))
        (300, "Master") := rfl

lemma computeBadges_mono {b : String} {x : Nat} {bs : List String} (h : b ∈ bs) :
    b ∈ computeBadges x bs := by
  rw [computeBadges_eq]
  exact badgeStep_mono _ _ (badgeStep_mono _ _ (badgeStep_mono _ _ h))

lemma computeBadges_threshold {x t : Nat} {n : String} (bs : List String)
    (hmem : (t, n) ∈ BADGE_THRESHOLDS) (h : t ≤ x) : n ∈ computeBadges x bs := by
  rw [computeBadges_eq]
  simp only [BADGE_THRESHOLDS, List.mem_cons, List.mem_singleton,
    List.not_mem_nil, or_false, Prod.mk.injEq] at hmem
  rcases hmem with ⟨rfl, rfl⟩ | ⟨rfl, rfl⟩ | ⟨rfl, rfl⟩
  · exact badgeStep_mono _ _ (badgeStep_mono _ _ (badgeStep_self _ h))
  · exact badgeStep_mono _ _ (badgeStep_self _ h)
  · exact badgeStep_self _ h

lemma runCalls_badge_mono (u b : String) :
    ∀ (calls : List (Option String × Int × String)) (rec : SelectProgress),
      b ∈ rec.badges → b ∈ (runCalls rec u calls).badges := by
  intro calls
  induction calls with
  | nil => intro rec h; exact h
  | cons c cs ih =>
      intro rec h
      have hstep : b ∈ (gamify (some rec) u c.1 c.2.1 c.2.2).badges := by
        rw [gamify_badges]
        exact computeBadges_mono (by simpa [priorBadges] using h)
      simpa [runCalls, List.foldl_cons] using ih (gamify (some rec) u c.1 c.2.1 c.2.2) hstep

lemma findLatestByUser_singleton (p : SelectProgress) (u : String) (h : p.userId = u) :
    findLatestByUser ⟨[p]⟩ u = some p := by
  simp [findLatestByUser, latestOf, List.filter, h]

lemma persistGamified_singleton (p q : SelectProgress) :
    persistGamified ⟨[p]⟩ (some p) q = ⟨[q]⟩ := by
  simp [persistGamified]

/-! ### Claim theorems -/

/-- Claim C1: for every call of the progress update operation in which the
persistence collaborator does not fail, the returned (and persisted) record's
xp equals the prior record's xp plus 10, and equals 10 when the user has no
prior record. -/
theorem C1_xp_award (beh : DbBehavior) (db : Db) (u : String) (l : Option String)
    (now : Int) (fid : String)
    (h1 : beh.readFails = false) (h2 : beh.writeFails = false) :
    (updateProgressWithGamificationAction beh db u l now fid).1 =
      ActionState.success "Progress updated with gamification successfully"
        (gamify (findLatestByUser db u) u l now fid) ∧
    (gamify (findLatestByUser db u) u l now fid).xp =
      (match findLatestByUser db u with
       | some p => p.xp
       | none => 0) + 10 := by
  constructor
  · rw [action_ok beh db u l now fid h1 h2]
  · rw [gamify_xp]
    cases findLatestByUser db u <;> simp [priorXp, XP_PER_EXERCISE]

/-- Witness for C1 at a concrete input (a user with no prior record). -/
theorem C1_xp_award_witness :
    (updateProgressWithGamificationAction ⟨false, false⟩ ⟨[]⟩ "u1" none 0 "r1").1 =
      ActionState.success "Progress updated with gamification successfully"
        (gamify (findLatestByUser ⟨[]⟩ "u1") "u1" none 0 "r1") ∧
    (gamify (findLatestByUser ⟨[]⟩ "u1") "u1" none 0 "r1").xp =
      (match findLatestByUser ⟨[]⟩ "u1" with
       | some p => p.xp
       | none => 0) + 10 :=
  C1_xp_award ⟨false, false⟩ ⟨[]⟩ "u1" none 0 "r1" rfl rfl

/-- Claim C2: for every non-failing call, a user with no prior record ends with
streak 1, and a user whose prior record was last updated less than 24 hours
before now ends with the prior streak plus 1. -/
theorem C2_streak_first_and_increment (beh : DbBehavior) (db : Db) (u : String)
    (l : Option String) (now : Int) (fid : String)
    (h1 : beh.readFails = false) (h2 : beh.writeFails = false) :
    (findLatestByUser db u = none →
      ∃ rec, (updateProgressWithGamificationAction beh db u l now fid).1 =
          ActionState.success "Progress updated with gamification successfully" rec ∧
        rec.streak = 1) ∧
    (∀ p, findLatestByUser db u = some p → now - p.updatedAt < STREAK_WINDOW →
      ∃ rec, (updateProgressWithGamificationAction beh db u l now fid).1 =
          ActionState.success "Progress updated with gamification successfully" rec ∧
        rec.streak = p.streak + 1) := by
  constructor
  · intro hE
    refine ⟨gamify (findLatestByUser db u) u l now fid, ?_, ?_⟩
    · rw [action_ok beh db u l now fid h1 h2]
    · rw [gamify_streak, hE, computeNewStreak_none]
  · intro p hE hlt
    refine ⟨gamify (findLatestByUser db u) u l now fid, ?_, ?_⟩
    · rw [action_ok beh db u l now fid h1 h2]
    · rw [gamify_streak, hE, computeNewStreak_within p now (le_of_lt hlt)]

/-- Witness for C2 at a concrete input (a user with no prior record). -/
theorem C2_streak_first_and_increment_witness :
    ∃ rec, (updateProgressWithGamificationAction ⟨false, false⟩ ⟨[]⟩ "u1" none 0 "r2").1 =
        ActionState.success "Progress updated with gamification successfully" rec ∧
      rec.streak = 1 :=
  (C2_streak_first_and_increment ⟨false, false⟩ ⟨[]⟩ "u1" none 0 "r2" rfl rfl).1 rfl

/-- Claim C3: for every non-failing call with a prior record, an elapsed time
of more than 48 hours resets the streak to 1, and an elapsed time strictly
between one and two 24-hour windows (24h exclusive to 48h inclusive) leaves
the streak unchanged. -/
theorem C3_streak_reset_and_hold (beh : DbBehavior) (db : Db) (u : String)
    (l : Option String) (now : Int) (fid : String) (p : SelectProgress)
    (h1 : beh.readFails = false) (h2 : beh.writeFails = false)
    (hp : findLatestByUser db u = some p) :
    (STREAK_WINDOW * 2 < now - p.updatedAt →
      ∃ rec, (updateProgressWithGamificationAction beh db u l now fid).1 =
          ActionState.success "Progress updated with gamification successfully" rec ∧
        rec.streak = 1) ∧
    (STREAK_WINDOW < now - p.updatedAt → now - p.updatedAt ≤ STREAK_WINDOW * 2 →
      ∃ rec, (updateProgressWithGamificationAction beh db u l now fid).1 =
          ActionState.success "Progress updated with gamification successfully" rec ∧
        rec.streak = p.streak) := by
  constructor
  · intro hgt
    refine ⟨gamify (findLatestByUser db u) u l now fid, ?_, ?_⟩
    · rw [action_ok beh db u l now fid h1 h2]
    · rw [gamify_streak, hp, computeNewStreak_reset p now hgt]
  · intro hlo hhi
    refine ⟨gamify (findLatestByUser db u) u l now fid, ?_, ?_⟩
    · rw [action_ok beh db u l now fid h1 h2]
    · rw [gamify_streak, hp, computeNewStreak_hold p now hlo hhi]

/-- Witness for C3 at a concrete input (prior record 50 hours old, streak 3,
reset to 1). -/
theorem C3_streak_reset_and_hold_witness :
    ∃ rec, (updateProgressWithGamificationAction ⟨false, false⟩
        ⟨[⟨"i0", "u1", none, 20, 3, [], 0, 0⟩]⟩ "u1" none 180000000 "r3").1 =
        ActionState.success "Progress updated with gamification successfully" rec ∧
      rec.streak = 1 :=
  (C3_streak_reset_and_hold ⟨false, false⟩ ⟨[⟨"i0", "u1", none, 20, 3, [], 0, 0⟩]⟩
      "u1" none 180000000 "r3" ⟨"i0", "u1", none, 20, 3, [], 0, 0⟩ rfl rfl
      (by decide)).1 (by decide)

/-- Claim C10: at the exact window boundaries, for every non-failing call with
a prior record: an elapsed time of exactly 24 hours still increments the
streak (the within-window comparison `<=` is inclusive), and an elapsed time
of exactly 48 hours leaves the streak unchanged (the reset comparison `>` is
strict). -/
theorem C10_streak_boundaries (beh : DbBehavior) (db : Db) (u : String)
    (l : Option String) (fid : String) (p : SelectProgress)
    (h1 : beh.readFails = false) (h2 : beh.writeFails = false)
    (hp : findLatestByUser db u = some p) :
    (∃ rec, (updateProgressWithGamificationAction beh db u l
          (p.updatedAt + STREAK_WINDOW) fid).1 =
        ActionState.success "Progress updated with gamification successfully" rec ∧
      rec.streak = p.streak + 1) ∧
    (∃ rec, (updateProgressWithGamificationAction beh db u l
          (p.updatedAt + STREAK_WINDOW * 2) fid).1 =
        ActionState.success "Progress updated with gamification successfully" rec ∧
      rec.streak = p.streak) := by
  have hw := streak_window_pos
  constructor
  · refine ⟨gamify (findLatestByUser db u) u l (p.updatedAt + STREAK_WINDOW) fid, ?_, ?_⟩
    · rw [action_ok beh db u l (p.updatedAt + STREAK_WINDOW) fid h1 h2]
    · rw [gamify_streak, hp, computeNewStreak_within p _ (by omega)]
  · refine ⟨gamify (findLatestByUser db u) u l (p.updatedAt + STREAK_WINDOW * 2) fid, ?_, ?_⟩
    · rw [action_ok beh db u l (p.updatedAt + STREAK_WINDOW * 2) fid h1 h2]
    · rw [gamify_streak, hp, computeNewStreak_hold p _ (by omega) (by omega)]

/-- Witness for C10 at a concrete input (prior record with streak 3). -/
theorem C10_streak_boundaries_witness :
    (∃ rec, (updateProgressWithGamificationAction ⟨false, false⟩
          ⟨[⟨"i0", "u1", none, 20, 3, [], 0, 0⟩]⟩ "u1" none
          ((0 : Int) + STREAK_WINDOW) "r10").1 =
        ActionState.success "Progress updated with gamification successfully" rec ∧
      rec.streak = 3 + 1) ∧
    (∃ rec, (updateProgressWithGamificationAction ⟨false, false⟩
          ⟨[⟨"i0", "u1", none, 20, 3, [], 0, 0⟩]⟩ "u1" none
          ((0 : Int) + STREAK_WINDOW * 2) "r10").1 =
        ActionState.success "Progress updated with gamification successfully" rec ∧
      rec.streak = 3) :=
  C10_streak_boundaries ⟨false, false⟩ ⟨[⟨"i0", "u1", none, 20, 3, [], 0, 0⟩]⟩
    "u1" none "r10" ⟨"i0", "u1", none, 20, 3, [], 0, 0⟩ rfl rfl (by decide)

/-- Claim C4: for every non-failing call, for each badge threshold pair
(50, "Learner"), (150, "Scholar"), (300, "Master"): if the returned record's
xp is at least the threshold then the badge is in the returned badge set; and
once a badge is present in a user's record it is present in the result of
every subsequent application of the update rule to that record. -/
theorem C4_badge_thresholds_and_retention (beh : DbBehavior) (db : Db) (u : String)
    (l : Option String) (now : Int) (fid : String)
    (h1 : beh.readFails = false) (h2 : beh.writeFails = false) :
    (∀ t n rec, (t, n) ∈ BADGE_THRESHOLDS →
      (updateProgressWithGamificationAction beh db u l now fid).1 =
        ActionState.success "Progress updated with gamification successfully" rec →
      t ≤ rec.xp → n ∈ rec.badges) ∧
    (∀ b rec calls, b ∈ SelectProgress.badges rec →
      b ∈ (runCalls rec u calls).badges) := by
  constructor
  · intro t n rec hmem heq hxp
    rw [action_ok beh db u l now fid h1 h2] at heq
    simp only [ActionState.success.injEq, true_and] at heq
    subst heq
    rw [gamify_badges]
    rw [gamify_xp] at hxp
    exact computeBadges_threshold _ hmem hxp
  · intro b rec calls hb
    exact runCalls_badge_mono u b calls rec hb

/-- Witness for C4 at a concrete input: a user at 40 xp crosses the 50
threshold and the returned record carries the "Learner" badge. -/
theorem C4_badge_thresholds_and_retention_witness :
    "Learner" ∈ (⟨"i0", "u1", none, 50, 4, ["Learner"], 0, 1000⟩ : SelectProgress).badges :=
  (C4_badge_thresholds_and_retention ⟨false, false⟩
      ⟨[⟨"i0", "u1", none, 40, 3, [], 0, 0⟩]⟩ "u1" none 1000 "r4" rfl rfl).1
    50 "Learner" ⟨"i0", "u1", none, 50, 4, ["Learner"], 0, 1000⟩
    (by decide) (by decide) (by decide)

/-- Claim C5: for every non-failing call, the returned record's badge set
contains every badge of the prior record (the empty set when no prior record
exists); the operation never removes a badge. -/
theorem C5_badges_never_removed (beh : DbBehavior) (db : Db) (u : String)
    (l : Option String) (now : Int) (fid : String)
    (h1 : beh.readFails = false) (h2 : beh.writeFails = false) :
    ∀ rec, (updateProgressWithGamificationAction beh db u l now fid).1 =
        ActionState.success "Progress updated with gamification successfully" rec →
      ∀ b, b ∈ priorBadges (findLatestByUser db u) → b ∈ rec.badges := by
  intro rec heq b hb
  rw [action_ok beh db u l now fid h1 h2] at heq
  simp only [ActionState.success.injEq, true_and] at heq
  subst heq
  rw [gamify_badges]
  exact computeBadges_mono hb

/-- Witness for C5 at a concrete input: a previously earned "Learner" badge
is still present after the call. -/
theorem C5_badges_never_removed_witness :
    "Learner" ∈ (⟨"i0", "u1", none, 70, 2, ["Learner"], 0, 1000⟩ : SelectProgress).badges :=
  C5_badges_never_removed ⟨false, false⟩
    ⟨[⟨"i0", "u1", none, 60, 1, ["Learner"], 0, 0⟩]⟩ "u1" none 1000 "r5" rfl rfl
    ⟨"i0", "u1", none, 70, 2, ["Learner"], 0, 1000⟩ (by decide) "Learner" (by decide)

/-- Claim C7: for every call and every behaviour of the persistence
collaborator (including a rejected read or write), the operation returns
either the success result carrying the updated record or the structured
failure result; no error escapes as an uncaught fault. -/
theorem C7_errors_always_caught (beh : DbBehavior) (db : Db) (u : String)
    (l : Option String) (now : Int) (fid : String) :
    (updateProgressWithGamificationAction beh db u l now fid).1 =
      ActionState.success "Progress updated with gamification successfully"
        (gamify (findLatestByUser db u) u l now fid) ∨
    (updateProgressWithGamificationAction beh db u l now fid).1 =
      ActionState.failure "Failed to update progress with gamification" := by
  cases hb1 : beh.readFails
  · cases hb2 : beh.writeFails
    · left
      rw [action_ok beh db u l now fid hb1 hb2]
    · right
      rw [action_writeFail beh db u l now fid hb1 hb2]
  · right
    rw [action_readFail beh db u l now fid hb1]

/-- Claim C8: for every call, if the operation returns a failure result then
the persisted state is unchanged, and if it returns a success result then the
full new record is persisted — there is no partial commit. -/
theorem C8_no_partial_commit (beh : DbBehavior) (db : Db) (u : String)
    (l : Option String) (now : Int) (fid : String) :
    (∀ m, (updateProgressWithGamificationAction beh db u l now fid).1 =
        ActionState.failure m →
      (updateProgressWithGamificationAction beh db u l now fid).2 = db) ∧
    (∀ m rec, (updateProgressWithGamificationAction beh db u l now fid).1 =
        ActionState.success m rec →
      (updateProgressWithGamificationAction beh db u l now fid).2 =
        persistGamified db (findLatestByUser db u) rec) := by
  cases hb1 : beh.readFails
  · cases hb2 : beh.writeFails
    · rw [action_ok beh db u l now fid hb1 hb2]
      constructor
      · intro m hm
        exact absurd hm (by simp)
      · intro m rec hm
        simp only [ActionState.success.injEq] at hm
        rw [hm.2]
    · rw [action_writeFail beh db u l now fid hb1 hb2]
      constructor
      · intro m _
        rfl
      · intro m rec hm
        exact absurd hm (by simp)
  · rw [action_readFail beh db u l now fid hb1]
    constructor
    · intro m _
      rfl
    · intro m rec hm
      exact absurd hm (by simp)

/-- Witness for C8 at a concrete input: with a rejected write the database is
left unchanged. -/
theorem C8_no_partial_commit_witness :
    (updateProgressWithGamificationAction ⟨false, true⟩
        ⟨[⟨"i0", "u1", none, 40, 3, [], 0, 0⟩]⟩ "u1" none 1000 "r8").2 =
      ⟨[⟨"i0", "u1", none, 40, 3, [], 0, 0⟩]⟩ :=
  (C8_no_partial_commit ⟨false, true⟩ ⟨[⟨"i0", "u1", none, 40, 3, [], 0, 0⟩]⟩
      "u1" none 1000 "r8").1 "Failed to update progress with gamification" (by decide)

/-- Claim C9: the operation is not idempotent: starting from any single-record
state for the user, two immediate non-failing calls (same `now`) leave the
user's record with xp equal to the prior xp plus 20 — not plus 10 — and the
second call's streak is the first call's result plus 1 (the within-24-hours
increment applies at zero elapsed time). -/
theorem C9_not_idempotent (p : SelectProgress) (u : String) (l l2 : Option String)
    (now : Int) (fid fid2 : String) (h : p.userId = u) :
    (updateProgressWithGamificationAction ⟨false, false⟩
        (updateProgressWithGamificationAction ⟨false, false⟩ ⟨[p]⟩ u l now fid).2
        u l2 now fid2).1 =
      ActionState.success "Progress updated with gamification successfully"
        (gamify (some (gamify (some p) u l now fid)) u l2 now fid2) ∧
    (gamify (some (gamify (some p) u l now fid)) u l2 now fid2).xp = p.xp + 20 ∧
    (gamify (some (gamify (some p) u l now fid)) u l2 now fid2).xp ≠ p.xp + 10 ∧
    (gamify (some (gamify (some p) u l now fid)) u l2 now fid2).streak =
      (gamify (some p) u l now fid).streak + 1 := by
  have hfind1 : findLatestByUser ⟨[p]⟩ u = some p := findLatestByUser_singleton p u h
  have hdb1 : (updateProgressWithGamificationAction ⟨false, false⟩ ⟨[p]⟩ u l now fid).2 =
      ⟨[gamify (some p) u l now fid]⟩ := by
    rw [action_ok _ _ _ _ _ _ rfl rfl, hfind1]
    exact persistGamified_singleton p _
  have hfind2 : findLatestByUser ⟨[gamify (some p) u l now fid]⟩ u =
      some (gamify (some p) u l now fid) :=
    findLatestByUser_singleton _ u (by rw [gamify_some_userId]; exact h)
  refine ⟨?_, ?_, ?_, ?_⟩
  · rw [hdb1, action_ok _ _ _ _ _ _ rfl rfl, hfind2]
  · simp only [gamify_xp, priorXp, XP_PER_EXERCISE]
  · simp only [gamify_xp, priorXp, XP_PER_EXERCISE]
    omega
  · rw [gamify_streak]
    have hle : now - (gamify (some p) u l now fid).updatedAt ≤ STREAK_WINDOW := by
      rw [gamify_updatedAt]
      have := streak_window_pos
      omega
    rw [computeNewStreak_within _ now hle]

/-- Witness for C9 at a concrete input: two immediate calls on a fresh record
with xp 0 end at xp 20. -/
theorem C9_not_idempotent_witness :
    (gamify (some (gamify (some (⟨"i0", "u1", none, 0, 0, [], 0, 0⟩ : SelectProgress))
        "u1" none 5 "a")) "u1" none 5 "b").xp =
      (⟨"i0", "u1", none, 0, 0, [], 0, 0⟩ : SelectProgress).xp + 20 :=
  (C9_not_idempotent ⟨"i0", "u1", none, 0, 0, [], 0, 0⟩ "u1" none none 5 "a" "b" rfl).2.1

/-- Claim C6 counterexample: called with the empty userId and a collaborator
that does not fail, the operation does not fail with a validation error: it
proceeds with the read and the write, returns a success result, and inserts a
record for the empty userId. -/
theorem C6_counterexample_no_validation_failure :
    (updateProgressWithGamificationAction ⟨false, false⟩ ⟨[]⟩ "" none 0 "r6").1 =
      ActionState.success "Progress updated with gamification successfully"
        ⟨"r6", "", none, 10, 1, [], 0, 0⟩ ∧
    (updateProgressWithGamificationAction ⟨false, false⟩ ⟨[]⟩ "" none 0 "r6").2 =
      ⟨[⟨"r6", "", none, 10, 1, [], 0, 0⟩]⟩ := by
  constructor <;> rfl

/-- Claim C6 (amended): the operation performs no userId validation: with an
empty userId it proceeds with the read and the write exactly as for any other
userId — succeeding with the gamified record and persisting it whenever the
collaborator does not fail — and every failure result it ever returns carries
the generic caught-error message, never a validation error. -/
theorem C6_no_userId_validation (beh : DbBehavior) (db : Db) (l : Option String)
    (now : Int) (fid : String)
    (h1 : beh.readFails = false) (h2 : beh.writeFails = false) :
    (updateProgressWithGamificationAction beh db "" l now fid).1 =
      ActionState.success "Progress updated with gamification successfully"
        (gamify (findLatestByUser db "") "" l now fid) ∧
    (updateProgressWithGamificationAction beh db "" l now fid).2 =
      persistGamified db (findLatestByUser db "")
        (gamify (findLatestByUser db "") "" l now fid) ∧
    (∀ (beh' : DbBehavior) (m : String),
      (updateProgressWithGamificationAction beh' db "" l now fid).1 =
        ActionState.failure m →
      m = "Failed to update progress with gamification") := by
  refine ⟨?_, ?_, ?_⟩
  · rw [action_ok beh db "" l now fid h1 h2]
  · rw [action_ok beh db "" l now fid h1 h2]
  · intro beh' m hm
    cases hb1 : beh'.readFails
    · cases hb2 : beh'.writeFails
      · rw [action_ok beh' db "" l now fid hb1 hb2] at hm
        exact absurd hm (by simp)
      · rw [action_writeFail beh' db "" l now fid hb1 hb2] at hm
        simpa using hm.symm
    · rw [action_readFail beh' db "" l now fid hb1] at hm
      simpa using hm.symm

/-- Witness for the amended C6 at a concrete input. -/
theorem C6_no_userId_validation_witness :
    (updateProgressWithGamificationAction ⟨false, false⟩ ⟨[]⟩ "" none 0 "r6b").1 =
      ActionState.success "Progress updated with gamification successfully"
        (gamify (findLatestByUser ⟨[]⟩ "") "" none 0 "r6b") :=
  (C6_no_userId_validation ⟨false, false⟩ ⟨[]⟩ none 0 "r6b" rfl rfl).1

end LearnKannada
